import Mathlib

/-!
Verification of the weather-lookup program in `main.py`.

The program reads a city name, issues a geocoding GET request, parses the
body as JSON, guards on Python truthiness of the parsed value, extracts the
first candidate's `lat` and `lon` fields, issues a weather GET request with
those coordinates, parses that body as JSON, and either prints a three-line
report or one of three error messages.

The embedding models each HTTP response by the parse result of its body
(`Option Json`: `none` when the body is not valid JSON), Python exceptions
by an explicit error value threaded through `Except`, and printing by a
list of output lines accumulated in the result.
-/

/-- Model of a parsed Python JSON value, as returned by `response.json()`.
A number carries both its rational value (which drives Python truthiness,
equality and dict-key lookup) and the string Python prints for it (its
`repr`, which is what an f-string interpolates). -/
inductive Json where
  | null : Json
  | bool : Bool → Json
  | num : Rat → String → Json
  | str : String → Json
  | arr : List Json → Json
  | obj : List (String × Json) → Json

/-- Python exceptions that the embedded code can raise. -/
inductive PyErr where
  | jsonDecodeError : PyErr
  | keyError : PyErr
  | typeError : PyErr
  | indexError : PyErr
deriving DecidableEq

/-- Python truthiness (`bool(x)`) of a parsed JSON value: `None`, `False`,
zero, the empty string, the empty list and the empty dict are falsy,
everything else is truthy.  This is what `if not location_data:` tests. -/
def pyTruthy : Json → Bool
  | .null => false
  | .bool b => b
  | .num v _ => decide (v ≠ 0)
  | .str s => decide (s ≠ "")
  | .arr xs => !xs.isEmpty
  | .obj kvs => !kvs.isEmpty

/-- Python subscript with an integer index (`location_data[0]`): lists index
by position (IndexError when out of range), strings yield the character at
the position as a one-character string, dicts look up the integer as a key
(a dict parsed from JSON has only string keys, so an integer key is always
a KeyError), and other values are not subscriptable (TypeError). -/
def pySubscriptInt : Json → Nat → Except PyErr Json
  | .arr xs, i =>
    match xs[i]? with
    | some x => .ok x
    | none => .error .indexError
  | .str s, i =>
    match s.data[i]? with
    | some c => .ok (.str (String.mk [c]))
    | none => .error .indexError
  | .obj _, _ => .error .keyError
  | _, _ => .error .typeError

/-- Lookup of a string key in a parsed JSON object.  Python's `json` module
keeps the last occurrence of a duplicated key, so the fold keeps the last
binding. -/
def objGet (kvs : List (String × Json)) (k : String) : Option Json :=
  kvs.foldl (fun acc p => if p.1 = k then some p.2 else acc) none

/-- Python subscript with a string key (`d['lat']`): dicts look up the key
(KeyError when absent); lists and strings demand integer indices
(TypeError); other values are not subscriptable (TypeError). -/
def pySubscriptStr : Json → String → Except PyErr Json
  | .obj kvs, k =>
    match objGet kvs k with
    | some v => .ok v
    | none => .error .keyError
  | _, _ => .error .typeError

/-- Whether the character list `needle` occurs as a contiguous run inside
`hay`. -/
def listContainsSub (hay needle : List Char) : Bool :=
  (List.range (hay.length + 1)).any (fun i => needle.isPrefixOf (hay.drop i))

/-- Whether `needle` occurs as a substring of `hay`; Python's
`'current' in s` for strings. -/
def strContains (hay needle : String) : Bool :=
  listContainsSub hay.data needle.data

/-- Python membership test `'current' in weather_data`: dicts test the keys,
lists test `==` against each element (a string equals only an equal string),
strings test substring containment, and other values are not containers
(TypeError). -/
def pyContains (j : Json) (k : String) : Except PyErr Bool :=
  match j with
  | .obj kvs => .ok (kvs.any (fun p => p.1 = k))
  | .arr xs => .ok (xs.any (fun x => match x with | .str s => s = k | _ => false))
  | .str s => .ok (strContains s k)
  | _ => .error .typeError

/-- Python `str.title()` as applied in `print(f"Weather in {city.title()}:")`:
a letter that follows a letter is lowercased, a letter that follows a
non-letter (or starts the string) is uppercased, other characters pass
through.  The boolean argument records whether the previous character was a
letter. -/
def pyTitleAux : List Char → Bool → List Char
  | [], _ => []
  | c :: cs, prevAlpha =>
    (if c.isAlpha then (if prevAlpha then c.toLower else c.toUpper) else c)
      :: pyTitleAux cs c.isAlpha

/-- Python `city.title()`. -/
def pyTitle (s : String) : String :=
  String.mk (pyTitleAux s.data false)

mutual

/-- Python `repr` of a parsed JSON value, used when an f-string interpolates
a non-string container (`str(x)` falls back to `repr` for these types). -/
def pyRepr : Json → String
  | .null => "None"
  | .bool true => "True"
  | .bool false => "False"
  | .num _ r => r
  | .str s => "\x27" ++ s ++ "\x27"
  | .arr xs => "[" ++ pyReprItems xs ++ "]"
  | .obj kvs => "\x7b" ++ pyReprFields kvs ++ "\x7d"

/-- Comma-separated `repr`s of list items. -/
def pyReprItems : List Json → String
  | [] => ""
  | [x] => pyRepr x
  | x :: xs => pyRepr x ++ ", " ++ pyReprItems xs

/-- Comma-separated `repr`s of dict entries. -/
def pyReprFields : List (String × Json) → String
  | [] => ""
  | [(k, v)] => "\x27" ++ k ++ "\x27: " ++ pyRepr v
  | (k, v) :: kvs => "\x27" ++ k ++ "\x27: " ++ pyRepr v ++ ", " ++ pyReprFields kvs

end

/-- Python `str(x)` of a parsed JSON value, which is what an f-string
interpolates: a string passes through unquoted, everything else renders as
its `repr` (floats print their `repr`, `None` prints `None`, `True` and
`False` capitalised). -/
def pyStr : Json → String
  | .str s => s
  | j => pyRepr j

/-- The `weather_descriptions` dict literal of `get_weather_description`
(lines 49-78 of `main.py`), in source order. -/
def weather_descriptions : List (Int × String) :=
  [(0, "Clear sky"),
   (1, "Mainly clear"),
   (2, "Partly cloudy"),
   (3, "Overcast"),
   (45, "Fog"),
   (48, "Depositing rime fog"),
   (51, "Drizzle: Light"),
   (53, "Drizzle: Moderate"),
   (55, "Drizzle: Dense intensity"),
   (56, "Freezing Drizzle: Light"),
   (57, "Freezing Drizzle: Dense intensity"),
   (61, "Rain: Slight"),
   (63, "Rain: Moderate"),
   (65, "Rain: Heavy intensity"),
   (66, "Freezing Rain: Light"),
   (67, "Freezing Rain: Heavy intensity"),
   (71, "Snow fall: Slight"),
   (73, "Snow fall: Moderate"),
   (75, "Snow fall: Heavy intensity"),
   (77, "Snow grains"),
   (80, "Rain showers: Slight"),
   (81, "Rain showers: Moderate"),
   (82, "Rain showers: Violent"),
   (85, "Snow showers: Slight"),
   (86, "Snow showers: Heavy"),
   (95, "Thunderstorm: Slight or moderate"),
   (96, "Thunderstorm with slight hail"),
   (99, "Thunderstorm with heavy hail")]

/-- The translation function `get_weather_description` on an integer code:
`weather_descriptions.get(code, "Unknown weather condition")`. -/
def get_weather_description (code : Int) : String :=
  (weather_descriptions.lookup code).getD "Unknown weather condition"

/-- Python `weather_descriptions.get(code, "Unknown weather condition")`
when `code` is an arbitrary value extracted from JSON rather than an
integer: an integral number (including a float such as `2.0`, which
compares and hashes equal to the int key) hits the table, a boolean is the
int `1` or `0` in Python, any other hashable value misses every int key and
yields the fallback, and an unhashable list or dict raises TypeError. -/
def descrOfJson : Json → Except PyErr String
  | .num v _ =>
    .ok (if v.den = 1 then get_weather_description v.num
         else "Unknown weather condition")
  | .bool b => .ok (get_weather_description (if b then 1 else 0))
  | .str _ => .ok "Unknown weather condition"
  | .null => .ok "Unknown weather condition"
  | .arr _ => .error .typeError
  | .obj _ => .error .typeError

/-- Observable outcome of one call to `get_weather`: the lines printed to
stdout in order, the coordinates sent to the weather endpoint (`none` when
no weather request was performed; the source interpolates these two values
into the request URL), and the uncaught Python exception if one escaped
(`none` means the call returned normally). -/
structure LookupOutcome where
  lines : List String
  weatherRequest : Option (Json × Json)
  exn : Option PyErr

/-- Lines 32-45 of `main.py`: fetch the weather for the extracted
coordinates and report.  `wxBody` is the parse result of the weather
response body; `weather_data = weather_response.json()` is not inside any
`try`, so an unparseable body raises an uncaught JSONDecodeError. -/
def fetch_weather (city : String) (latitude longitude : Json)
    (wxBody : Option Json) : LookupOutcome :=
  let req := some (latitude, longitude)
  match wxBody with
  | none => ⟨[], req, some .jsonDecodeError⟩
  | some weather_data =>
    match pyContains weather_data ("current") with
    | .error e => ⟨[], req, some e⟩
    | .ok false =>
      ⟨["Error: Unable to retrieve weather data for \x27" ++ city ++ "\x27."],
       req, none⟩
    | .ok true =>
      match pySubscriptStr weather_data ("current") with
      | .error e => ⟨[], req, some e⟩
      | .ok current_weather =>
        match pySubscriptStr current_weather ("temperature_2m") with
        | .error e => ⟨[], req, some e⟩
        | .ok temperature =>
          match pySubscriptStr current_weather ("weathercode") with
          | .error e => ⟨[], req, some e⟩
          | .ok weather_code =>
            match descrOfJson weather_code with
            | .error e => ⟨[], req, some e⟩
            | .ok weather_description =>
              ⟨["Weather in " ++ pyTitle city ++ ":",
                "Temperature: " ++ pyStr temperature ++ "°C",
                "Condition: " ++ weather_description],
               req, none⟩

/-- Lines 23-45 of `main.py`, entered once `location_data` is truthy:
`latitude = location_data[0]['lat']`, `longitude = location_data[0]['lon']`,
then the weather fetch.  Any subscript failure here raises before the
weather request is issued. -/
def proceed_with_location (city : String) (location_data : Json)
    (wxBody : Option Json) : LookupOutcome :=
  match pySubscriptInt location_data 0 with
  | .error e => ⟨[], none, some e⟩
  | .ok first =>
    match pySubscriptStr first ("lat") with
    | .error e => ⟨[], none, some e⟩
    | .ok latitude =>
      match pySubscriptStr first ("lon") with
      | .error e => ⟨[], none, some e⟩
      | .ok longitude => fetch_weather city latitude longitude wxBody

/-- The function `get_weather(city)` of `main.py` (lines 4-45).  `geoBody`
is the parse result of the geocoding response body: `none` models a body
that is not valid JSON, for which the `try`/`except JSONDecodeError` prints
the fetch-error message and returns.  A falsy parse result prints the
not-found message and returns.  Otherwise the first candidate's `lat` and
`lon` drive the weather fetch. -/
def get_weather (city : String) (geoBody wxBody : Option Json) :
    LookupOutcome :=
  match geoBody with
  | none => ⟨["Error: Unable to fetch location data. Try again later."], none, none⟩
  | some location_data =>
    if !pyTruthy location_data then
      ⟨["Error: Unable to find location data for \x27" ++ city ++
          "\x27. Please check the city name."], none, none⟩
    else
      proceed_with_location city location_data wxBody

/-- Geocoding candidate for Berlin: an object with `lat` and `lon` fields,
as the geocoding endpoint returns. -/
def berlinFirst : Json :=
  .obj [("lat", .num (52.52 : Rat) ("52.52")), ("lon", .num (13.41 : Rat) ("13.41"))]

/-- A geocoding response body for Berlin: a one-element candidate array. -/
def berlinGeo : Json := .arr [berlinFirst]

/-- A weather response body: current temperature 18.3 and weathercode 2. -/
def berlinWx : Json :=
  .obj [("current", .obj [("temperature_2m", .num (18.3 : Rat) ("18.3")),
                          ("weathercode", .num (2 : Rat) ("2"))])]

/-- Helper: a key that is under none of the pairs of an association list is
not found by `List.lookup`. -/
lemma assoc_lookup_none (c : Int) (l : List (Int × String))
    (h : ∀ p ∈ l, p.1 ≠ c) : l.lookup c = none := by
  induction l with
  | nil => rfl
  | cons p t ih =>
    obtain ⟨k, b⟩ := p
    have hk : k ≠ c := h (k, b) (List.mem_cons_self _ _)
    have hbeq : (c == k) = false := beq_eq_false_iff_ne.mpr (fun hc => hk hc.symm)
    simp only [List.lookup, hbeq]
    exact ih (fun q hq => h q (List.mem_cons_of_mem _ hq))

/-- Helper: a string occurring between two others is a substring of the
concatenation. -/
lemma strContains_of_append (a c b : String) :
    strContains (a ++ c ++ b) c = true := by
  unfold strContains listContainsSub
  rw [List.any_eq_true]
  refine ⟨a.data.length, ?_, ?_⟩
  · rw [List.mem_range]
    have h : (a ++ c ++ b).data = a.data ++ (c.data ++ b.data) := by
      simp [String.data_append]
    rw [h]
    simp [Nat.lt_succ_of_le]
  · have h : (a ++ c ++ b).data = a.data ++ (c.data ++ b.data) := by
      simp [String.data_append]
    rw [h, List.drop_left]
    rw [List.isPrefixOf_iff_prefix]
    exact List.prefix_append _ _

/-- C1: every one of the 28 integer codes of the condition table translates
to exactly its mapped description, the table keys are exactly those 28
codes, and every integer outside the table translates to exactly the
string "Unknown weather condition"; the function is total, so no input
signals an error. -/
theorem get_weather_description_table_exact :
    (∀ p ∈ weather_descriptions, get_weather_description p.1 = p.2)
    ∧ weather_descriptions.map Prod.fst =
        [0, 1, 2, 3, 45, 48, 51, 53, 55, 56, 57, 61, 63, 65, 66, 67, 71, 73,
         75, 77, 80, 81, 82, 85, 86, 95, 96, 99]
    ∧ ∀ c : Int,
        c ∉ ([0, 1, 2, 3, 45, 48, 51, 53, 55, 56, 57, 61, 63, 65, 66, 67, 71,
              73, 75, 77, 80, 81, 82, 85, 86, 95, 96, 99] : List Int) →
        get_weather_description c = "Unknown weather condition" := by
  refine ⟨by decide, by decide, ?_⟩
  intro c h
  have hnone : weather_descriptions.lookup c = none := by
    apply assoc_lookup_none
    intro p hp hpc
    apply h
    have hmem : p.1 ∈ weather_descriptions.map Prod.fst :=
      List.mem_map_of_mem Prod.fst hp
    have hkeys : weather_descriptions.map Prod.fst =
        ([0, 1, 2, 3, 45, 48, 51, 53, 55, 56, 57, 61, 63, 65, 66, 67, 71, 73,
          75, 77, 80, 81, 82, 85, 86, 95, 96, 99] : List Int) := by decide
    rw [hkeys] at hmem
    rwa [hpc] at hmem
  simp [get_weather_description, hnone]

/-- Witness for C1 at the out-of-table codes 9999 and -1. -/
theorem get_weather_description_table_exact_witness :
    get_weather_description 9999 = "Unknown weather condition"
    ∧ get_weather_description (-1) = "Unknown weather condition" :=
  ⟨get_weather_description_table_exact.2.2 9999 (by decide),
   get_weather_description_table_exact.2.2 (-1) (by decide)⟩

/-- C2: on the Berlin geocoding response (first candidate lat 52.52,
lon 13.41) and a weather response whose current field holds temperature
18.3 and weathercode 2, the lookup prints exactly the three report lines in
order, sends exactly those coordinates to the weather endpoint, and raises
nothing. -/
theorem get_weather_berlin_report :
    get_weather ("Berlin") (some berlinGeo) (some berlinWx) =
      ⟨["Weather in Berlin:", "Temperature: 18.3°C", "Condition: Partly cloudy"],
       some (.num (52.52 : Rat) ("52.52"), .num (13.41 : Rat) ("13.41")),
       none⟩ := rfl

/-- Counterexample to C3: with a perfectly good geocoding response but a
weather body that is not valid JSON, the lookup does yield an uncaught
exception (the weather-side `response.json()` sits outside any `try`), so
it is not the case that every pair of response bodies terminates normally
with a printed message. -/
theorem get_weather_exn_escape_counterexample :
    (get_weather ("Berlin") (some berlinGeo) none).exn =
      some PyErr.jsonDecodeError := rfl

/-- C3 (amended): the three guarded failure classes are each caught and
converted to a printed message with normal termination — a geocoding body
that is not valid JSON, a geocoding body that parses to a falsy value, and
(once coordinates were extracted) a weather body that parses to an object
lacking a top-level current field.  Failures outside these classes, such as
an unparseable weather body, can escape the lookup as uncaught
exceptions. -/
theorem get_weather_guarded_failure_classes :
    (∀ (city : String) (wx : Option Json),
       get_weather city none wx =
         ⟨["Error: Unable to fetch location data. Try again later."],
          none, none⟩)
    ∧ (∀ (city : String) (j : Json) (wx : Option Json),
        pyTruthy j = false →
        get_weather city (some j) wx =
          ⟨["Error: Unable to find location data for \x27" ++ city ++
              "\x27. Please check the city name."], none, none⟩)
    ∧ (∀ (city : String) (ld first latitude longitude : Json)
         (wkvs : List (String × Json)),
        pyTruthy ld = true →
        pySubscriptInt ld 0 = .ok first →
        pySubscriptStr first ("lat") = .ok latitude →
        pySubscriptStr first ("lon") = .ok longitude →
        wkvs.any (fun p => p.1 = "current") = false →
        get_weather city (some ld) (some (.obj wkvs)) =
          ⟨["Error: Unable to retrieve weather data for \x27" ++ city ++ "\x27."],
           some (latitude, longitude), none⟩) := by
  refine ⟨fun _ _ => rfl, ?_, ?_⟩
  · intro city j wx h
    simp [get_weather, h]
  · intro city ld first latitude longitude wkvs h0 h1 h2 h3 h4
    simp [get_weather, h0, proceed_with_location, h1, h2, h3,
          fetch_weather, pyContains, h4]

/-- Witness for C3 (amended): the falsy class at an empty array, and the
missing-current class at an empty weather object. -/
theorem get_weather_guarded_failure_classes_witness :
    get_weather ("berlin") (some (Json.arr [])) (some berlinWx) =
      ⟨["Error: Unable to find location data for \x27berlin\x27. Please check the city name."],
       none, none⟩
    ∧ get_weather ("Berlin") (some berlinGeo) (some (Json.obj [])) =
        ⟨["Error: Unable to retrieve weather data for \x27Berlin\x27."],
         some (.num (52.52 : Rat) ("52.52"), .num (13.41 : Rat) ("13.41")),
         none⟩ :=
  ⟨get_weather_guarded_failure_classes.2.1 ("berlin") (Json.arr [])
     (some berlinWx) rfl,
   get_weather_guarded_failure_classes.2.2 ("Berlin") berlinGeo berlinFirst
     (.num (52.52 : Rat) ("52.52")) (.num (13.41 : Rat) ("13.41")) [] rfl rfl
     rfl rfl rfl⟩

/-- C4: an empty geocoding array prints the not-found message, which
contains the supplied city name verbatim; no weather request is performed,
no temperature or condition line is printed, and the call returns
normally. -/
theorem get_weather_empty_geocode_not_found :
    ∀ (city : String) (wx : Option Json),
      get_weather city (some (.arr [])) wx =
        ⟨["Error: Unable to find location data for \x27" ++ city ++
            "\x27. Please check the city name."], none, none⟩
      ∧ strContains ("Error: Unable to find location data for \x27" ++ city ++
            "\x27. Please check the city name.") city = true := by
  intro city wx
  exact ⟨rfl, strContains_of_append _ _ _⟩

/-- C5: a geocoding body that is not valid JSON prints the fetch-error
message, performs no weather request, and propagates no exception. -/
theorem get_weather_unparseable_geocode :
    ∀ (city : String) (wx : Option Json),
      get_weather city none wx =
        ⟨["Error: Unable to fetch location data. Try again later."],
         none, none⟩ :=
  fun _ _ => rfl

/-- C6: when the geocoding stage yields coordinates but the weather body
parses to an object with no top-level current field, the lookup prints one
error line containing the city name, prints no temperature or condition
line, and raises nothing. -/
theorem get_weather_missing_current :
    ∀ (city : String) (ld first latitude longitude : Json)
      (wkvs : List (String × Json)),
      pyTruthy ld = true →
      pySubscriptInt ld 0 = .ok first →
      pySubscriptStr first ("lat") = .ok latitude →
      pySubscriptStr first ("lon") = .ok longitude →
      wkvs.any (fun p => p.1 = "current") = false →
      get_weather city (some ld) (some (.obj wkvs)) =
        ⟨["Error: Unable to retrieve weather data for \x27" ++ city ++ "\x27."],
         some (latitude, longitude), none⟩
      ∧ strContains ("Error: Unable to retrieve weather data for \x27" ++ city ++
            "\x27.") city = true := by
  intro city ld first latitude longitude wkvs h0 h1 h2 h3 h4
  refine ⟨?_, strContains_of_append _ _ _⟩
  simp [get_weather, h0, proceed_with_location, h1, h2, h3,
        fetch_weather, pyContains, h4]

/-- Witness for C6: Berlin coordinates with a weather object carrying only
an unrelated field. -/
theorem get_weather_missing_current_witness :
    get_weather ("Berlin") (some berlinGeo) (some (.obj [("time", .str ("x"))])) =
      ⟨["Error: Unable to retrieve weather data for \x27Berlin\x27."],
       some (.num (52.52 : Rat) ("52.52"), .num (13.41 : Rat) ("13.41")),
       none⟩
    ∧ strContains ("Error: Unable to retrieve weather data for \x27Berlin\x27.")
        ("Berlin") = true :=
  get_weather_missing_current ("Berlin") berlinGeo berlinFirst
    (.num (52.52 : Rat) ("52.52")) (.num (13.41 : Rat) ("13.41"))
    [("time", .str ("x"))] rfl rfl rfl rfl rfl

/-- C7: when the weather object does carry a current field whose value is
an object missing temperature_2m (or having temperature_2m but missing
weathercode), the lookup raises a raw KeyError — no handled error line is
printed (the printed-line list is empty). -/
theorem get_weather_current_missing_fields_raise :
    ∀ (city : String) (ld first latitude longitude : Json)
      (wkvs ckvs : List (String × Json)),
      pyTruthy ld = true →
      pySubscriptInt ld 0 = .ok first →
      pySubscriptStr first ("lat") = .ok latitude →
      pySubscriptStr first ("lon") = .ok longitude →
      wkvs.any (fun p => p.1 = "current") = true →
      pySubscriptStr (.obj wkvs) ("current") = .ok (.obj ckvs) →
      ((objGet ckvs ("temperature_2m") = none →
        get_weather city (some ld) (some (.obj wkvs)) =
          ⟨[], some (latitude, longitude), some PyErr.keyError⟩)
      ∧ ∀ t : Json, objGet ckvs ("temperature_2m") = some t →
          objGet ckvs ("weathercode") = none →
          get_weather city (some ld) (some (.obj wkvs)) =
            ⟨[], some (latitude, longitude), some PyErr.keyError⟩) := by
  intro city ld first latitude longitude wkvs ckvs h0 h1 h2 h3 h4 h5
  constructor
  · intro h6
    have e6 : pySubscriptStr (.obj ckvs) ("temperature_2m") =
        .error PyErr.keyError := by simp [pySubscriptStr, h6]
    simp [get_weather, h0, proceed_with_location, h1, h2, h3,
          fetch_weather, pyContains, h4, h5, e6]
  · intro t h6 h7
    have e6 : pySubscriptStr (.obj ckvs) ("temperature_2m") = .ok t := by
      simp [pySubscriptStr, h6]
    have e7 : pySubscriptStr (.obj ckvs) ("weathercode") =
        .error PyErr.keyError := by simp [pySubscriptStr, h7]
    simp [get_weather, h0, proceed_with_location, h1, h2, h3,
          fetch_weather, pyContains, h4, h5, e6, e7]

/-- Witness for C7: a current object with no fields, and one with only
temperature_2m. -/
theorem get_weather_current_missing_fields_raise_witness :
    get_weather ("Berlin") (some berlinGeo) (some (.obj [("current", .obj [])])) =
      ⟨[], some (.num (52.52 : Rat) ("52.52"), .num (13.41 : Rat) ("13.41")),
       some PyErr.keyError⟩
    ∧ get_weather ("Berlin") (some berlinGeo)
        (some (.obj [("current", .obj [("temperature_2m", .num (18.3 : Rat) ("18.3"))])])) =
      ⟨[], some (.num (52.52 : Rat) ("52.52"), .num (13.41 : Rat) ("13.41")),
       some PyErr.keyError⟩ :=
  ⟨(get_weather_current_missing_fields_raise ("Berlin") berlinGeo berlinFirst
      (.num (52.52 : Rat) ("52.52")) (.num (13.41 : Rat) ("13.41"))
      [("current", .obj [])] [] rfl rfl rfl rfl rfl rfl).1 rfl,
   (get_weather_current_missing_fields_raise ("Berlin") berlinGeo berlinFirst
      (.num (52.52 : Rat) ("52.52")) (.num (13.41 : Rat) ("13.41"))
      [("current", .obj [("temperature_2m", .num (18.3 : Rat) ("18.3"))])]
      [("temperature_2m", .num (18.3 : Rat) ("18.3"))] rfl rfl rfl rfl rfl
      rfl).2 (.num (18.3 : Rat) ("18.3")) rfl rfl⟩

/-- Helper: if the weather stage prints three lines, the first is the
title-cased header. -/
lemma fetch_weather_head (city : String) (latitude longitude : Json)
    (wx : Option Json) :
    (fetch_weather city latitude longitude wx).lines.length = 3 →
    (fetch_weather city latitude longitude wx).lines.head? =
      some ("Weather in " ++ pyTitle city ++ ":") := by
  cases wx with
  | none => simp [fetch_weather]
  | some wd =>
    cases hc : pyContains wd ("current") with
    | error e => simp [fetch_weather, hc]
    | ok b =>
      cases b with
      | false => simp [fetch_weather, hc]
      | true =>
        cases hcur : pySubscriptStr wd ("current") with
        | error e => simp [fetch_weather, hc, hcur]
        | ok cw =>
          cases htemp : pySubscriptStr cw ("temperature_2m") with
          | error e => simp [fetch_weather, hc, hcur, htemp]
          | ok t =>
            cases hwc : pySubscriptStr cw ("weathercode") with
            | error e => simp [fetch_weather, hc, hcur, htemp, hwc]
            | ok wc =>
              cases hd : descrOfJson wc with
              | error e => simp [fetch_weather, hc, hcur, htemp, hwc, hd]
              | ok d => simp [fetch_weather, hc, hcur, htemp, hwc, hd]

/-- C8: whenever a lookup succeeds (prints its three report lines), the
header line renders the city as the Python title-cased form of the exact
input string, whatever its casing. -/
theorem get_weather_header_title_case :
    ∀ (city : String) (geo wx : Option Json),
      (get_weather city geo wx).lines.length = 3 →
      (get_weather city geo wx).lines.head? =
        some ("Weather in " ++ pyTitle city ++ ":") := by
  intro city geo wx
  cases geo with
  | none => simp [get_weather]
  | some ld =>
    by_cases ht : pyTruthy ld
    · simp only [get_weather, ht, Bool.not_true, Bool.false_eq_true, if_false]
      cases h0 : pySubscriptInt ld 0 with
      | error e => simp [proceed_with_location, h0]
      | ok first =>
        cases h1 : pySubscriptStr first ("lat") with
        | error e => simp [proceed_with_location, h0, h1]
        | ok latitude =>
          cases h2 : pySubscriptStr first ("lon") with
          | error e => simp [proceed_with_location, h0, h1, h2]
          | ok longitude =>
            simp only [proceed_with_location, h0, h1, h2]
            exact fetch_weather_head city latitude longitude wx
    · have ht' : pyTruthy ld = false := by simp_all
      simp [get_weather, ht']

/-- Witness for C8 at a lower-cased two-word city on the Berlin
responses. -/
theorem get_weather_header_title_case_witness :
    (get_weather ("new york") (some berlinGeo) (some berlinWx)).lines.head? =
      some ("Weather in New York:") :=
  get_weather_header_title_case ("new york") (some berlinGeo) (some berlinWx)
    (by rfl)

/-- Helper: every branch of the weather stage records exactly the
coordinates it was given as the weather request. -/
lemma fetch_weather_request (city : String) (latitude longitude : Json)
    (wx : Option Json) :
    (fetch_weather city latitude longitude wx).weatherRequest =
      some (latitude, longitude) := by
  cases wx with
  | none => rfl
  | some wd =>
    cases hc : pyContains wd ("current") with
    | error e => simp [fetch_weather, hc]
    | ok b =>
      cases b with
      | false => simp [fetch_weather, hc]
      | true =>
        cases hcur : pySubscriptStr wd ("current") with
        | error e => simp [fetch_weather, hc, hcur]
        | ok cw =>
          cases htemp : pySubscriptStr cw ("temperature_2m") with
          | error e => simp [fetch_weather, hc, hcur, htemp]
          | ok t =>
            cases hwc : pySubscriptStr cw ("weathercode") with
            | error e => simp [fetch_weather, hc, hcur, htemp, hwc]
            | ok wc =>
              cases hd : descrOfJson wc with
              | error e => simp [fetch_weather, hc, hcur, htemp, hwc, hd]
              | ok d => simp [fetch_weather, hc, hcur, htemp, hwc, hd]

/-- C9: the coordinates sent to the weather endpoint are exactly the lat
and lon fields of the first geocoding candidate, and the candidates after
the first have no influence at all on the outcome of the lookup. -/
theorem get_weather_first_candidate_only :
    (∀ (city : String) (x : Json) (rest : List Json) (wx : Option Json)
       (latitude longitude : Json),
       pySubscriptStr x ("lat") = .ok latitude →
       pySubscriptStr x ("lon") = .ok longitude →
       (get_weather city (some (.arr (x :: rest))) wx).weatherRequest =
         some (latitude, longitude))
    ∧ ∀ (city : String) (x : Json) (rest₁ rest₂ : List Json)
        (wx : Option Json),
        get_weather city (some (.arr (x :: rest₁))) wx =
          get_weather city (some (.arr (x :: rest₂))) wx := by
  constructor
  · intro city x rest wx latitude longitude h1 h2
    have h0 : pySubscriptInt (.arr (x :: rest)) 0 = .ok x := by
      simp [pySubscriptInt]
    simp only [get_weather, pyTruthy, List.isEmpty_cons, Bool.not_false,
      Bool.not_true, Bool.false_eq_true, if_false, proceed_with_location,
      h0, h1, h2]
    exact fetch_weather_request city latitude longitude wx
  · intro city x rest₁ rest₂ wx
    have h0 : ∀ r : List Json, pySubscriptInt (.arr (x :: r)) 0 = .ok x := by
      intro r; simp [pySubscriptInt]
    simp [get_weather, pyTruthy, proceed_with_location, h0]

/-- Witness for C9: with a second (irrelevant) candidate appended, the
weather request still carries the first candidate coordinates. -/
theorem get_weather_first_candidate_only_witness :
    (get_weather ("Berlin") (some (.arr [berlinFirst, .null]))
        (some berlinWx)).weatherRequest =
      some (.num (52.52 : Rat) ("52.52"), .num (13.41 : Rat) ("13.41")) :=
  get_weather_first_candidate_only.1 ("Berlin") berlinFirst [.null]
    (some berlinWx) (.num (52.52 : Rat) ("52.52"))
    (.num (13.41 : Rat) ("13.41")) rfl rfl

/-- Helper: past the truthiness guard, an outcome that made no weather
request carries an exception, so it cannot be the not-found outcome. -/
lemma proceed_no_request_raises (city : String) (ld : Json)
    (wx : Option Json) :
    (proceed_with_location city ld wx).weatherRequest = none →
    (proceed_with_location city ld wx).exn ≠ none := by
  cases h0 : pySubscriptInt ld 0 with
  | error e => simp [proceed_with_location, h0]
  | ok first =>
    cases h1 : pySubscriptStr first ("lat") with
    | error e => simp [proceed_with_location, h0, h1]
    | ok latitude =>
      cases h2 : pySubscriptStr first ("lon") with
      | error e => simp [proceed_with_location, h0, h1, h2]
      | ok longitude =>
        simp only [proceed_with_location, h0, h1, h2]
        rw [fetch_weather_request]
        intro h
        exact absurd h (by simp)

/-- C10: the not-found branch fires exactly when the parsed geocoding JSON
is falsy under Python truthiness — which holds for null, false, zero, the
empty object, the empty string and the empty array alike — and a truthy
value of any shape proceeds to index the first element (so an indexing
failure there surfaces as that exception). -/
theorem get_weather_not_found_iff_falsy :
    (∀ (city : String) (j : Json) (wx : Option Json),
       get_weather city (some j) wx =
         ⟨["Error: Unable to find location data for \x27" ++ city ++
             "\x27. Please check the city name."], none, none⟩
       ↔ pyTruthy j = false)
    ∧ pyTruthy .null = false
    ∧ pyTruthy (.bool false) = false
    ∧ pyTruthy (.num 0 ("0")) = false
    ∧ pyTruthy (.obj []) = false
    ∧ pyTruthy (.str "") = false
    ∧ pyTruthy (.arr []) = false
    ∧ ∀ (city : String) (j : Json) (wx : Option Json) (e : PyErr),
        pyTruthy j = true → pySubscriptInt j 0 = .error e →
        get_weather city (some j) wx = ⟨[], none, some e⟩ := by
  refine ⟨?_, rfl, rfl, by decide, rfl, by decide, rfl, ?_⟩
  · intro city j wx
    constructor
    · intro h
      by_cases ht : pyTruthy j
      · exfalso
        have hgw : get_weather city (some j) wx =
            proceed_with_location city j wx := by simp [get_weather, ht]
        rw [hgw] at h
        have hreq : (proceed_with_location city j wx).weatherRequest = none := by
          rw [h]
        have hexn := proceed_no_request_raises city j wx hreq
        rw [h] at hexn
        exact hexn rfl
      · simp_all
    · intro h
      simp [get_weather, h]
  · intro city j wx e ht h0
    simp [get_weather, ht, proceed_with_location, h0]

/-- Witness for C10: the branch fires on a null geocoding value, and a
truthy non-indexable value (a number) proceeds to the subscript and raises
its TypeError. -/
theorem get_weather_not_found_iff_falsy_witness :
    get_weather ("Paris") (some .null) (some berlinWx) =
      ⟨["Error: Unable to find location data for \x27Paris\x27. Please check the city name."],
       none, none⟩
    ∧ get_weather ("Paris") (some (.num 1 ("1"))) (some berlinWx) =
        ⟨[], none, some PyErr.typeError⟩ :=
  ⟨(get_weather_not_found_iff_falsy.1 ("Paris") .null (some berlinWx)).mpr rfl,
   get_weather_not_found_iff_falsy.2.2.2.2.2.2.2 ("Paris") (.num 1 ("1"))
     (some berlinWx) PyErr.typeError (by decide) rfl⟩
